import Mathlib

/-!
Shallow embedding of the Zetta protocol core
(`src/Core/src/zetta_protocol.c`, `src/Core/inc/zetta_protocol.h`).

Machine bytes are modelled as `Nat` (callers of the C functions can only
pass `uint8_t` values, so theorems carry `< 256` hypotheses where the
C type system enforces byte range); stores into `uint8_t` fields from
wider values are modelled with `% 256`.  The injected CRC function
`uint32_t computeCRC(uint32_t*, uint32_t)` is modelled as a function
from the checked byte span (as a list) to a wide natural number.
Transport invocation and error dispatch are recorded as ghost outputs
(`sent`, `raised`) of each operation, alongside the successor state.

`zetta_init` unconditionally installs `zetta_error_manager` as the
`OnError` hook, so the parser's and encoder's error dispatch is modelled
by inlining `zetta_error_manager`'s state effect at each raise site,
while the ghost `raised` list records every dispatched error.

The busy-wait loops (`while (pstate == ZETTA_STATE_TX_BUSY)` in
`zetta_send`, `while (pstate == ZETTA_STATE_RX_BUSY)` in
`zetta_ParseByte`) have empty bodies andnever change the condition, so
they either exit at once or spin forever; the wrappers return `none`
exactly in the spinning case, and `spinExits` models the loop itself.
-/

/-- `#define MAX_PAYLOAD_SIZE 25`. -/
def MAX_PAYLOAD_SIZE : Nat := 25

/-- `#define START_BYTE 0xAA`. -/
def START_BYTE : Nat := 0xAA

/-- `#define STOP_BYTE 0xBC`. -/
def STOP_BYTE : Nat := 0xBC

/-- `ZettaError_t` from the header. -/
inductive ZettaError_t where
  | ZETTA_ERROR
  | ZETTA_OK
  | ZETTA_ERROR_TYPE
  | ZETTA_FRAME_ERROR
  | ZETTA_ERROR_INVALID_START
  | ZETTA_ERROR_PAYLOAD_TOO_LARGE
  | ZETTA_ERROR_CRC_MISMATCH
  | ZETTA_ERROR_INVALID_STOP
  | ZETTA_ERROR_TIMEOUT
  | ZETTA_ERROR_TX_BUSY
  | ZETTA_ERROR_RX_BUSY
  deriving DecidableEq, Repr

export ZettaError_t (ZETTA_ERROR ZETTA_OK ZETTA_ERROR_TYPE ZETTA_FRAME_ERROR
  ZETTA_ERROR_INVALID_START ZETTA_ERROR_PAYLOAD_TOO_LARGE
  ZETTA_ERROR_CRC_MISMATCH ZETTA_ERROR_INVALID_STOP)

/-- `ZettaFrameRxState_t` from the header. -/
inductive ZettaFrameRxState_t where
  | STATE_RX_WAIT_START
  | STATE_RX_GET_TYPE
  | STATE_RX_GET_LEN
  | STATE_RX_GET_PAYLOAD
  | STATE_RX_GET_CRC
  | STATE_RX_GET_STOP
  deriving DecidableEq, Repr

export ZettaFrameRxState_t (STATE_RX_WAIT_START STATE_RX_GET_TYPE
  STATE_RX_GET_LEN STATE_RX_GET_PAYLOAD STATE_RX_GET_CRC STATE_RX_GET_STOP)

/-- `ZettaProtocolState_t` from the header: the single shared TX/RX gate field. -/
inductive ZettaProtocolState_t where
  | ZETTA_STATE_TX_BUSY
  | ZETTA_STATE_TX_READY
  | ZETTA_STATE_RX_READY
  | ZETTA_STATE_RX_BUSY
  deriving DecidableEq, Repr

export ZettaProtocolState_t (ZETTA_STATE_TX_BUSY ZETTA_STATE_TX_READY
  ZETTA_STATE_RX_READY ZETTA_STATE_RX_BUSY)

/-- A C function pointer held in the interface record: `NULL`, the address of
one of the library's default callbacks, or some user function. -/
inductive FnPtr where
  | null
  | defaultRxCplt
  | defaultTxCplt
  | defaultErrMgr
  | user (n : Nat)
  deriving DecidableEq, Repr

/-- `ZettaInterface_t`: the injected transport / CRC / callback bundle.
`computeCRC` carries real semantics (the byte span checked, as a list, to the
wide checksum); the callback slots are modelled by pointer identity. -/
structure ZettaInterface_t where
  send : FnPtr
  receive : FnPtr
  computeCRC : List Nat → Nat
  rxCpltClbk : FnPtr
  txCpltClbk : FnPtr
  OnError : FnPtr

/-- `ZettaFrame_t`: the packed on-wire record kept in the instance.
`payload` models the fixed 25-byte `uint8_t payload[MAX_PAYLOAD_SIZE]` array. -/
structure ZettaFrame_t where
  start : Nat
  type : Nat
  len : Nat
  payload : List Nat
  crc : Nat
  stop : Nat
  deriving Repr

/-- `Zetta_t`: the protocol instance (interface bundle plus `_internal`). -/
structure Zetta_t where
  interface : ZettaInterface_t
  pstate : ZettaProtocolState_t
  index : Nat
  frame : ZettaFrame_t
  last_byte_time : Nat
  error : ZettaError_t
  rx_frame_state : ZettaFrameRxState_t
  payload_ready : Bool

/-- The all-zero frame produced by `memset(packet, 0, sizeof(Zetta_t))`. -/
def zeroFrame : ZettaFrame_t :=
  { start := 0, type := 0, len := 0, payload := List.replicate MAX_PAYLOAD_SIZE 0,
    crc := 0, stop := 0 }

/-- `zetta_init`: `memset` the instance to zero, set `pstate` to
`ZETTA_STATE_RX_READY`, copy the caller's interface, then unconditionally
overwrite `rxCpltClbk`, `txCpltClbk` and `OnError` with the library defaults. -/
def zetta_init (interface : ZettaInterface_t) : Zetta_t :=
  { interface :=
      { interface with
        rxCpltClbk := FnPtr.defaultRxCplt
        txCpltClbk := FnPtr.defaultTxCplt
        OnError := FnPtr.defaultErrMgr }
    pstate := ZETTA_STATE_RX_READY
    index := 0
    frame := zeroFrame
    last_byte_time := 0
    error := ZETTA_OK
    rx_frame_state := STATE_RX_WAIT_START
    payload_ready := false }

/-- `zetta_compute_crc`: apply the injected `computeCRC` to the
`type ++ len ++ payload[0..len]` span (`1 + 1 + frame.len` bytes starting at
`&frame.type` in the packed struct). -/
def zetta_compute_crc (packet : Zetta_t) : Nat :=
  packet.interface.computeCRC
    (packet.frame.type :: packet.frame.len :: packet.frame.payload.take packet.frame.len)

/-- `zetta_error_manager`: the default error hook; it unconditionally resets
the RX state machine to `STATE_RX_WAIT_START` (the `switch` only prints). -/
def zetta_error_manager (packet : Zetta_t) (_error : ZettaError_t) : Zetta_t :=
  { packet with rx_frame_state := STATE_RX_WAIT_START }

/-- `zetta_recieve_cplt_clb`: the default receive-complete callback. -/
def zetta_recieve_cplt_clb (packet : Zetta_t) : Zetta_t :=
  { packet with pstate := ZETTA_STATE_RX_READY }

/-- `zetta_transmit_cplt_clb`: the default transmit-complete callback. -/
def zetta_transmit_cplt_clb (packet : Zetta_t) : Zetta_t :=
  { packet with pstate := ZETTA_STATE_TX_READY }

/-- An empty-body busy-wait loop `while (cond) {}` run with `fuel` iterations
allowed: returns `true` when the loop exits within the fuel.  The body changes
nothing, so the condition is invariant across iterations. -/
def spinExits : Nat → Bool → Bool
  | _, false => true
  | 0, true => false
  | Nat.succ n, true => spinExits n true

/-- Result of one `zetta_ParseByte` call: successor state, return value, and
the ghost list of errors dispatched to the `OnError` hook during the call. -/
structure ParseResult where
  st : Zetta_t
  ret : ZettaError_t
  raised : List ZettaError_t

/-- The `switch (rx_frame_state)` body of `zetta_ParseByte` (everything after
the busy-wait gate).  `zetta_check_type` returns `ZETTA_OK` (truthy) for every
byte, so the `STATE_RX_GET_TYPE` error arm is dead code.  Every fall-through
path returns `ZETTA_ERROR`; only a verified frame completion returns
`ZETTA_OK`.  Error dispatch inlines `zetta_error_manager` (installed by
`zetta_init`) and records the error in `raised`. -/
def parseCore (packet : Zetta_t) (byte : Nat) : ParseResult :=
  match packet.rx_frame_state with
  | STATE_RX_WAIT_START =>
    if byte = START_BYTE then
      { st := { packet with
                  rx_frame_state := STATE_RX_GET_TYPE
                  frame := { packet.frame with start := START_BYTE }
                  index := 0 }
        ret := ZETTA_ERROR, raised := [] }
    else
      { st := zetta_error_manager { packet with error := ZETTA_ERROR_INVALID_START }
                ZETTA_ERROR_INVALID_START
        ret := ZETTA_ERROR, raised := [ZETTA_ERROR_INVALID_START] }
  | STATE_RX_GET_TYPE =>
      { st := { packet with
                  frame := { packet.frame with type := byte }
                  rx_frame_state := STATE_RX_GET_LEN }
        ret := ZETTA_ERROR, raised := [] }
  | STATE_RX_GET_LEN =>
    if byte ≤ MAX_PAYLOAD_SIZE then
      { st := { packet with
                  frame := { packet.frame with len := byte }
                  rx_frame_state :=
                    if byte = 0 then STATE_RX_GET_CRC else STATE_RX_GET_PAYLOAD }
        ret := ZETTA_ERROR, raised := [] }
    else
      { st := zetta_error_manager { packet with error := ZETTA_ERROR_PAYLOAD_TOO_LARGE }
                ZETTA_ERROR_PAYLOAD_TOO_LARGE
        ret := ZETTA_ERROR, raised := [ZETTA_ERROR_PAYLOAD_TOO_LARGE] }
  | STATE_RX_GET_PAYLOAD =>
      let p1 := { packet with
                    frame := { packet.frame with
                                 payload := packet.frame.payload.set packet.index byte }
                    index := packet.index + 1 }
      if p1.frame.len ≤ p1.index then
        { st := { p1 with rx_frame_state := STATE_RX_GET_CRC }
          ret := ZETTA_ERROR, raised := [] }
      else
        { st := p1, ret := ZETTA_ERROR, raised := [] }
  | STATE_RX_GET_CRC =>
      { st := { packet with
                  frame := { packet.frame with crc := byte }
                  rx_frame_state := STATE_RX_GET_STOP }
        ret := ZETTA_ERROR, raised := [] }
  | STATE_RX_GET_STOP =>
    if byte = STOP_BYTE then
      let p1 := { packet with
                    rx_frame_state := STATE_RX_WAIT_START
                    frame := { packet.frame with stop := STOP_BYTE } }
      let crc_val := zetta_compute_crc p1
      if crc_val = p1.frame.crc then
        { st := { p1 with payload_ready := true }
          ret := ZETTA_OK, raised := [] }
      else
        { st := zetta_error_manager { p1 with error := ZETTA_ERROR_CRC_MISMATCH }
                  ZETTA_ERROR_CRC_MISMATCH
          ret := ZETTA_ERROR, raised := [ZETTA_ERROR_CRC_MISMATCH] }
    else
      { st := zetta_error_manager { packet with error := ZETTA_ERROR_INVALID_STOP }
                ZETTA_ERROR_INVALID_STOP
        ret := ZETTA_ERROR, raised := [ZETTA_ERROR_INVALID_STOP] }

/-- `zetta_ParseByte`: busy-wait `while (pstate == ZETTA_STATE_RX_BUSY) {}`
with an empty body (so it spins forever when `pstate` is `RX_BUSY`, modelled
as `none`), then the state switch. -/
def zetta_ParseByte (packet : Zetta_t) (byte : Nat) : Option ParseResult :=
  if packet.pstate = ZETTA_STATE_RX_BUSY then none
  else some (parseCore packet byte)

/-- Result of feeding a byte sequence: final state, the per-byte return values
in order, and all errors dispatched along the way. -/
structure RunResult where
  st : Zetta_t
  rets : List ZettaError_t
  raised : List ZettaError_t

/-- Feed each byte in order through the parser switch. -/
def runCore (packet : Zetta_t) : List Nat → RunResult
  | [] => { st := packet, rets := [], raised := [] }
  | b :: bs =>
      let r := parseCore packet b
      let rest := runCore r.st bs
      { st := rest.st, rets := r.ret :: rest.rets, raised := r.raised ++ rest.raised }

/-- Feed each byte in order through `zetta_ParseByte`; `none` as soon as one
call spins on the RX gate. -/
def runBytes (packet : Zetta_t) : List Nat → Option RunResult
  | [] => some { st := packet, rets := [], raised := [] }
  | b :: bs =>
      match zetta_ParseByte packet b with
      | none => none
      | some r =>
        match runBytes r.st bs with
        | none => none
        | some rest =>
            some { st := rest.st, rets := r.ret :: rest.rets
                   raised := r.raised ++ rest.raised }

/-- Result of one `zetta_send` call: successor state, return value, ghost
raised-error list, and the bytes handed to the transport `send` primitive
(`none` when the transport was never invoked). -/
structure SendResult where
  st : Zetta_t
  ret : ZettaError_t
  raised : List ZettaError_t
  sent : Option (List Nat)

/-- The body of `zetta_send` after the TX busy-wait gate: reject oversized
payloads through the error hook without touching the transmit buffer or the
transport; otherwise build `START | type | len | payload | crc | STOP` in the
transmit buffer, mirror the frame into `_internal.frame` (the `uint8_t crc`
field truncates the wide checksum: `% 256`), set the gate to `TX_BUSY`, and
hand the `3 + len + 2` bytes to the transport. -/
def sendCore (packet : Zetta_t) (type : Nat) (pData : List Nat) (len : Nat) :
    SendResult :=
  if MAX_PAYLOAD_SIZE < len then
    { st := zetta_error_manager packet ZETTA_ERROR_PAYLOAD_TOO_LARGE
      ret := ZETTA_ERROR_PAYLOAD_TOO_LARGE
      raised := [ZETTA_ERROR_PAYLOAD_TOO_LARGE]
      sent := none }
  else
    let p1 := { packet with
                  pstate := ZETTA_STATE_TX_BUSY
                  frame := { packet.frame with
                               type := type
                               len := len
                               payload := pData.take len ++
                                            packet.frame.payload.drop len } }
    let c := zetta_compute_crc p1 % 256
    let p2 := { p1 with frame := { p1.frame with crc := c } }
    { st := p2
      ret := ZETTA_OK
      raised := []
      sent := some (START_BYTE :: type :: len :: (pData.take len ++ [c, STOP_BYTE])) }

/-- `zetta_send`: busy-wait `while (pstate == ZETTA_STATE_TX_BUSY) {}` with an
empty body (spins forever when the gate is held, modelled as `none`), then the
encoder body. -/
def zetta_send (packet : Zetta_t) (type : Nat) (pData : List Nat) (len : Nat) :
    Option SendResult :=
  if packet.pstate = ZETTA_STATE_TX_BUSY then none
  else some (sendCore packet type pData len)

/-- `Zetta_GetPayload`: `memcpy(pDest, frame.payload, frame.len)` when
`payload_ready`, else leave the destination untouched. -/
def Zetta_GetPayload (hzetta : Zetta_t) (pDest : List Nat) : List Nat :=
  if hzetta.payload_ready then
    hzetta.frame.payload.take hzetta.frame.len ++ pDest.drop hzetta.frame.len
  else pDest

/-- `Zetta_GetType`: the stored frame type when `payload_ready`, else
`MSG_ACK` (numeric value 0). -/
def Zetta_GetType (hzetta : Zetta_t) : Nat :=
  if hzetta.payload_ready then hzetta.frame.type else 0

/-- One application-visible operation on an instance, for stating
reachability invariants over call sequences. -/
inductive ZOp where
  | send (type : Nat) (pData : List Nat) (len : Nat)
  | parse (byte : Nat)

/-- Run a sequence of `zetta_send` / `zetta_ParseByte` calls; `none` as soon
as one call spins on its gate. -/
def runOps (packet : Zetta_t) : List ZOp → Option Zetta_t
  | [] => some packet
  | ZOp.send t d l :: ops =>
      match zetta_send packet t d l with
      | none => none
      | some r => runOps r.st ops
  | ZOp.parse b :: ops =>
      match zetta_ParseByte packet b with
      | none => none
      | some r => runOps r.st ops

/-! ### Basic structural lemmas -/

theorem parseCore_pstate (s : Zetta_t) (b : Nat) :
    (parseCore s b).st.pstate = s.pstate := by
  cases hs : s.rx_frame_state <;>
    simp only [parseCore, hs, zetta_error_manager] <;>
    (repeat' split) <;> rfl

theorem parseCore_interface (s : Zetta_t) (b : Nat) :
    (parseCore s b).st.interface = s.interface := by
  cases hs : s.rx_frame_state <;>
    simp only [parseCore, hs, zetta_error_manager] <;>
    (repeat' split) <;> rfl

theorem parseCore_payload_length (s : Zetta_t) (b : Nat) :
    (parseCore s b).st.frame.payload.length = s.frame.payload.length := by
  cases hs : s.rx_frame_state <;>
    simp only [parseCore, hs, zetta_error_manager] <;>
    (repeat' split) <;> simp [List.length_set]

theorem parseCore_payload_ready_mono (s : Zetta_t) (b : Nat)
    (h : s.payload_ready = true) : (parseCore s b).st.payload_ready = true := by
  cases hs : s.rx_frame_state <;>
    simp only [parseCore, hs, zetta_error_manager] <;>
    (repeat' split) <;> simp_all

theorem parseCore_len_le (s : Zetta_t) (b : Nat)
    (h : s.frame.len ≤ MAX_PAYLOAD_SIZE) :
    (parseCore s b).st.frame.len ≤ MAX_PAYLOAD_SIZE := by
  cases hs : s.rx_frame_state <;>
    simp only [parseCore, hs, zetta_error_manager] <;>
    (repeat' split) <;> simp_all

theorem sendCore_len_le (s : Zetta_t) (t : Nat) (d : List Nat) (l : Nat)
    (h : s.frame.len ≤ MAX_PAYLOAD_SIZE) :
    (sendCore s t d l).st.frame.len ≤ MAX_PAYLOAD_SIZE := by
  simp only [sendCore, zetta_error_manager]
  split <;> simp_all

theorem runCore_pstate (bs : List Nat) (s : Zetta_t) :
    (runCore s bs).st.pstate = s.pstate := by
  induction bs generalizing s with
  | nil => rfl
  | cons b bs ih => simp only [runCore]; rw [ih, parseCore_pstate]

theorem runCore_interface (bs : List Nat) (s : Zetta_t) :
    (runCore s bs).st.interface = s.interface := by
  induction bs generalizing s with
  | nil => rfl
  | cons b bs ih => simp only [runCore]; rw [ih, parseCore_interface]

/-- When the RX gate is open, the byte-sequence feed never spins (the parser
does not touch `pstate`), and agrees with the total `runCore`. -/
theorem runBytes_eq_runCore (bs : List Nat) (s : Zetta_t)
    (h : s.pstate ≠ ZETTA_STATE_RX_BUSY) :
    runBytes s bs = some (runCore s bs) := by
  induction bs generalizing s with
  | nil => rfl
  | cons b bs ih =>
      have hp : (parseCore s b).st.pstate ≠ ZETTA_STATE_RX_BUSY := by
        rw [parseCore_pstate]; exact h
      simp only [runBytes, zetta_ParseByte, if_neg h, ih _ hp, runCore]

/-- Any error dispatched by the parser leaves the RX state machine back in
`STATE_RX_WAIT_START` (the default hook resets it unconditionally). -/
theorem parseCore_raised_wait_start (s : Zetta_t) (b : Nat)
    (h : (parseCore s b).raised ≠ []) :
    (parseCore s b).st.rx_frame_state = STATE_RX_WAIT_START := by
  revert h
  cases hs : s.rx_frame_state <;>
    simp only [parseCore, hs, zetta_error_manager] <;>
    (repeat' split) <;> simp

/-! ### Feeding a whole frame: helper lemmas -/

theorem take_succ_set : ∀ (l : List Nat) (i b : Nat), i < l.length →
    (l.set i b).take (i + 1) = l.take i ++ [b]
  | [], _, _, h => absurd h (by simp)
  | _ :: _, 0, _, _ => by simp
  | x :: xs, i + 1, b, h => by
      simp only [List.set, List.take, List.cons_append, List.cons.injEq, true_and]
      exact take_succ_set xs i b (by simpa using h)


theorem parseCore_payload_step (s : Zetta_t) (b : Nat)
    (hrx : s.rx_frame_state = STATE_RX_GET_PAYLOAD) :
    parseCore s b =
      if s.frame.len ≤ s.index + 1 then
        { st := { s with
                    frame := { s.frame with payload := s.frame.payload.set s.index b }
                    index := s.index + 1
                    rx_frame_state := STATE_RX_GET_CRC }
          ret := ZETTA_ERROR, raised := [] }
      else
        { st := { s with
                    frame := { s.frame with payload := s.frame.payload.set s.index b }
                    index := s.index + 1 }
          ret := ZETTA_ERROR, raised := [] } := by
  by_cases h : s.frame.len ≤ s.index + 1 <;> simp [parseCore, hrx, h]

/-- Feeding the `len - index` remaining payload bytes from `STATE_RX_GET_PAYLOAD`
stores them in order at `payload[index..]` and lands in `STATE_RX_GET_CRC`,
raising nothing; every per-byte return is `ZETTA_ERROR` ("not yet"). -/
theorem runCore_payload (p : List Nat) : ∀ (s : Zetta_t),
    s.rx_frame_state = STATE_RX_GET_PAYLOAD →
    s.frame.len ≤ s.frame.payload.length →
    s.index + p.length = s.frame.len →
    p ≠ [] →
    (runCore s p).st.frame.payload.take s.frame.len
        = s.frame.payload.take s.index ++ p ∧
    (runCore s p).st.rx_frame_state = STATE_RX_GET_CRC ∧
    (runCore s p).st.frame.len = s.frame.len ∧
    (runCore s p).st.frame.type = s.frame.type ∧
    (runCore s p).st.frame.payload.length = s.frame.payload.length ∧
    (runCore s p).st.payload_ready = s.payload_ready ∧
    (runCore s p).st.interface = s.interface ∧
    (runCore s p).raised = [] ∧
    (runCore s p).rets = List.replicate p.length ZETTA_ERROR := by
  induction p with
  | nil => intro s _ _ _ hne; exact absurd rfl hne
  | cons b p' ih =>
    intro s hrx hlen hidx _
    rw [show runCore s (b :: p') =
          { st := (runCore (parseCore s b).st p').st
            rets := (parseCore s b).ret :: (runCore (parseCore s b).st p').rets
            raised := (parseCore s b).raised ++ (runCore (parseCore s b).st p').raised }
        from rfl,
        parseCore_payload_step s b hrx]
    by_cases hlast : p' = []
    · subst hlast
      have hfin : s.index + 1 = s.frame.len := by simpa using hidx
      have hilt : s.index < s.frame.payload.length := by omega
      rw [if_pos hfin.ge]
      refine ⟨?_, by simp [runCore], by simp [runCore], by simp [runCore],
        by simp [runCore], by simp [runCore], by simp [runCore],
        by simp [runCore], by simp [runCore]⟩
      simp only [runCore]
      rw [← hfin]
      exact take_succ_set _ _ _ hilt
    · have hlp : 1 ≤ p'.length := List.length_pos.mpr hlast
      have hcond : ¬ (s.frame.len ≤ s.index + 1) := by
        simp only [List.length_cons] at hidx; omega
      have hilt : s.index < s.frame.payload.length := by
        simp only [List.length_cons] at hidx; omega
      rw [if_neg hcond]
      have hih := ih
        { s with
            frame := { s.frame with payload := s.frame.payload.set s.index b }
            index := s.index + 1 }
        hrx
        (by simpa [List.length_set] using hlen)
        (by simp only [List.length_cons] at hidx
            simpa using (by omega : s.index + 1 + p'.length = s.frame.len))
        hlast
      simp only [List.length_set] at hih
      obtain ⟨h1, h2, h3, h4, h5, h6, h7, h8, h9⟩ := hih
      refine ⟨?_, by simpa using h2, by simpa using h3, by simpa using h4,
        by simpa using h5, by simpa using h6, by simpa using h7,
        by simpa using h8, by simp [h9, List.replicate_succ]⟩
      simp only at h1 ⊢
      rw [h1, take_succ_set _ _ _ hilt]
      simp

theorem runCore_append (xs ys : List Nat) (s : Zetta_t) :
    runCore s (xs ++ ys) =
      { st := (runCore (runCore s xs).st ys).st
        rets := (runCore s xs).rets ++ (runCore (runCore s xs).st ys).rets
        raised := (runCore s xs).raised ++ (runCore (runCore s xs).st ys).raised } := by
  induction xs generalizing s with
  | nil => simp [runCore]
  | cons b bs ih => simp [runCore, ih, List.append_assoc]

/-- The three header bytes `START | type | len` walk
`WAIT_START → GET_TYPE → GET_LEN → (GET_CRC | GET_PAYLOAD)`. -/
theorem runCore_header (s : Zetta_t) (t n : Nat)
    (hrx : s.rx_frame_state = STATE_RX_WAIT_START)
    (hn : n ≤ MAX_PAYLOAD_SIZE) :
    runCore s [START_BYTE, t, n] =
      { st := { s with
                  frame := { s.frame with start := START_BYTE, type := t, len := n }
                  index := 0
                  rx_frame_state :=
                    if n = 0 then STATE_RX_GET_CRC else STATE_RX_GET_PAYLOAD }
        rets := [ZETTA_ERROR, ZETTA_ERROR, ZETTA_ERROR]
        raised := [] } := by
  by_cases hz : n = 0 <;> simp [runCore, parseCore, hrx, hn, hz]

/-- The two trailer bytes `crc | STOP` from `STATE_RX_GET_CRC`: the stop byte
matches, so the frame is accepted or rejected purely on the CRC comparison
(computed wide value against the received byte). -/
theorem runCore_tail (s : Zetta_t) (c : Nat)
    (hrx : s.rx_frame_state = STATE_RX_GET_CRC) :
    runCore s [c, STOP_BYTE] =
      if s.interface.computeCRC
          (s.frame.type :: s.frame.len :: s.frame.payload.take s.frame.len) = c then
        { st := { s with
                    frame := { s.frame with crc := c, stop := STOP_BYTE }
                    rx_frame_state := STATE_RX_WAIT_START
                    payload_ready := true }
          rets := [ZETTA_ERROR, ZETTA_OK]
          raised := [] }
      else
        { st := { s with
                    frame := { s.frame with crc := c, stop := STOP_BYTE }
                    rx_frame_state := STATE_RX_WAIT_START
                    error := ZETTA_ERROR_CRC_MISMATCH }
          rets := [ZETTA_ERROR, ZETTA_ERROR]
          raised := [ZETTA_ERROR_CRC_MISMATCH] } := by
  by_cases h : s.interface.computeCRC
      (s.frame.type :: s.frame.len :: s.frame.payload.take s.frame.len) = c <;>
    simp [runCore, parseCore, hrx, zetta_compute_crc, zetta_error_manager, h]

theorem replicate_err_concat (n : Nat) (x : ZettaError_t) :
    ZETTA_ERROR :: ZETTA_ERROR :: ZETTA_ERROR ::
      (List.replicate n ZETTA_ERROR ++ [ZETTA_ERROR, x]) =
    List.replicate (4 + n) ZETTA_ERROR ++ [x] := by
  induction n with
  | zero => rfl
  | succ n ih =>
      have h4 : 4 + (n + 1) = (4 + n) + 1 := by omega
      rw [h4, List.replicate_succ]
      simp only [List.replicate_succ, List.cons_append] at ih ⊢
      rw [← ih]

/-- Feeding one complete wire frame `START | t | n | p | c | STOP` from
`STATE_RX_WAIT_START`: the parser assembles `t`, `n` and `p` in the instance
frame, returns to `WAIT_START`, and the final byte returns `ZETTA_OK` exactly
when the injected CRC of the `type ++ len ++ payload` span equals the
received `crc` byte (untruncated comparison). -/
theorem runCore_frame (s : Zetta_t) (t n c : Nat) (p : List Nat)
    (hrx : s.rx_frame_state = STATE_RX_WAIT_START)
    (hn : n ≤ MAX_PAYLOAD_SIZE)
    (hp : p.length = n)
    (hlen : MAX_PAYLOAD_SIZE ≤ s.frame.payload.length) :
    (runCore s (START_BYTE :: t :: n :: (p ++ [c, STOP_BYTE]))).st.frame.type = t ∧
    (runCore s (START_BYTE :: t :: n :: (p ++ [c, STOP_BYTE]))).st.frame.len = n ∧
    (runCore s (START_BYTE :: t :: n :: (p ++ [c, STOP_BYTE]))).st.frame.payload.take n = p ∧
    (runCore s (START_BYTE :: t :: n :: (p ++ [c, STOP_BYTE]))).st.frame.crc = c ∧
    (runCore s (START_BYTE :: t :: n :: (p ++ [c, STOP_BYTE]))).st.rx_frame_state
        = STATE_RX_WAIT_START ∧
    (runCore s (START_BYTE :: t :: n :: (p ++ [c, STOP_BYTE]))).st.interface = s.interface ∧
    (runCore s (START_BYTE :: t :: n :: (p ++ [c, STOP_BYTE]))).st.frame.payload.length
        = s.frame.payload.length ∧
    (s.interface.computeCRC (t :: n :: p) = c →
      (runCore s (START_BYTE :: t :: n :: (p ++ [c, STOP_BYTE]))).rets
          = List.replicate (4 + n) ZETTA_ERROR ++ [ZETTA_OK] ∧
      (runCore s (START_BYTE :: t :: n :: (p ++ [c, STOP_BYTE]))).st.payload_ready = true ∧
      (runCore s (START_BYTE :: t :: n :: (p ++ [c, STOP_BYTE]))).raised = []) ∧
    (s.interface.computeCRC (t :: n :: p) ≠ c →
      (runCore s (START_BYTE :: t :: n :: (p ++ [c, STOP_BYTE]))).rets
          = List.replicate (4 + n) ZETTA_ERROR ++ [ZETTA_ERROR] ∧
      (runCore s (START_BYTE :: t :: n :: (p ++ [c, STOP_BYTE]))).st.payload_ready
          = s.payload_ready ∧
      (runCore s (START_BYTE :: t :: n :: (p ++ [c, STOP_BYTE]))).raised
          = [ZETTA_ERROR_CRC_MISMATCH]) := by
  have hsplit : START_BYTE :: t :: n :: (p ++ [c, STOP_BYTE])
      = [START_BYTE, t, n] ++ (p ++ [c, STOP_BYTE]) := rfl
  rw [hsplit, runCore_append, runCore_header s t n hrx hn]
  by_cases hz : n = 0
  · subst hz
    have hpz : p = [] := List.length_eq_zero.mp hp
    subst hpz
    simp only [if_pos rfl, List.nil_append]
    rw [runCore_tail _ c (by simp)]
    by_cases hc : s.interface.computeCRC [t, 0] = c
    · simp [hc, replicate_err_concat]
    · simp only [List.take] at hc ⊢
      rw [if_neg (by simpa using hc)]
      simp [hc]
  · have hge : 1 ≤ n := Nat.one_le_iff_ne_zero.mpr hz
    simp only [if_neg hz]
    rw [runCore_append]
    have hmid := runCore_payload p
      { s with
          frame := { s.frame with start := START_BYTE, type := t, len := n }
          index := 0
          rx_frame_state := STATE_RX_GET_PAYLOAD }
      rfl (by simpa using le_trans hn hlen) (by simpa using hp)
      (by intro h; rw [h] at hp; simp at hp; omega)
    simp only at hmid
    obtain ⟨h1, h2, h3, h4, h5, h6, h7, h8, h9⟩ := hmid
    rw [runCore_tail _ c h2]
    simp only [List.take_zero, List.nil_append] at h1
    rw [h3, h4, h1, h7]
    by_cases hc : s.interface.computeCRC (t :: n :: p) = c
    · rw [if_pos hc]
      simp [h3, h4, h1, h5, h6, h7, h8, h9, hc, hp, replicate_err_concat]
    · rw [if_neg hc]
      simp [h3, h4, h1, h5, h6, h7, h8, h9, hc, hp, replicate_err_concat]

/-- A successful `zetta_send` (`len` within bound): the frame record mirrors
the outbound frame (with the wide CRC truncated into the `uint8_t crc`
field), the gate is left `TX_BUSY`, and the transport receives exactly
`START | type | len | payload | crc | STOP`. -/
theorem sendCore_ok (s : Zetta_t) (t : Nat) (d : List Nat) (l : Nat)
    (hl : l ≤ MAX_PAYLOAD_SIZE) (hd : l ≤ d.length) :
    sendCore s t d l =
      { st := { s with
                  pstate := ZETTA_STATE_TX_BUSY
                  frame := { s.frame with
                               type := t
                               len := l
                               payload := d.take l ++ s.frame.payload.drop l
                               crc := s.interface.computeCRC (t :: l :: d.take l) % 256 } }
        ret := ZETTA_OK
        raised := []
        sent := some (START_BYTE :: t :: l ::
          (d.take l ++ [s.interface.computeCRC (t :: l :: d.take l) % 256, STOP_BYTE])) } := by
  have hnot : ¬ MAX_PAYLOAD_SIZE < l := not_lt.mpr hl
  have htake : (d.take l ++ s.frame.payload.drop l).take l = d.take l := by
    rw [List.take_append_of_le_length]
    · simp [Nat.min_eq_left hd]
    · simp [Nat.min_eq_left hd]
  simp only [sendCore, if_neg hnot, zetta_compute_crc, htake]

/-! ### Claims -/

/-- **C1** (amended): round-trip.  For every type byte, every payload of
length `len ≤ MAX_PAYLOAD_SIZE`, and every injected CRC function *whose
values fit in one byte* (so that the `uint8_t` truncation of the computed
checksum is lossless), calling `zetta_send` on a freshly initialized instance
and feeding each of the `3 + len + 2` bytes it handed to the transport, in
order, through `zetta_ParseByte` on a freshly initialized instance yields a
completed frame: `ZETTA_OK` on the final byte (and only there), with the
received `type`, `len` and `payload[0..len]` equal to the originals.  (The
one-byte restriction on the CRC is forced: the receiver compares the
*untruncated* wide checksum against the received byte — see the
counterexample.) -/
theorem C1_roundtrip (iface : ZettaInterface_t) (t len : Nat) (pData : List Nat)
    (ht : t < 256)
    (hlen : len ≤ MAX_PAYLOAD_SIZE)
    (hd : pData.length = len)
    (hbytes : ∀ b ∈ pData, b < 256)
    (hcf : ∀ l, iface.computeCRC l < 256) :
    ∃ sr : SendResult, zetta_send (zetta_init iface) t pData len = some sr ∧
      sr.ret = ZETTA_OK ∧
      ∃ wire : List Nat, sr.sent = some wire ∧ wire.length = 3 + len + 2 ∧
      ∃ rr : RunResult, runBytes (zetta_init iface) wire = some rr ∧
        rr.rets = List.replicate (4 + len) ZETTA_ERROR ++ [ZETTA_OK] ∧
        rr.st.frame.type = t ∧
        rr.st.frame.len = len ∧
        rr.st.frame.payload.take len = pData ∧
        rr.st.payload_ready = true := by
  have htx : (zetta_init iface).pstate ≠ ZETTA_STATE_TX_BUSY := by
    simp [zetta_init]
  have hdl : len ≤ pData.length := le_of_eq hd.symm
  have htake : pData.take len = pData := by
    rw [← hd]; exact List.take_length pData
  have hs := sendCore_ok (zetta_init iface) t pData len hlen hdl
  rw [htake] at hs
  have hsend : zetta_send (zetta_init iface) t pData len
      = some (sendCore (zetta_init iface) t pData len) := by
    simp [zetta_send, zetta_init]
  refine ⟨sendCore (zetta_init iface) t pData len, hsend, by rw [hs], ?_⟩
  set c := (zetta_init iface).interface.computeCRC (t :: len :: pData) % 256 with hc
  refine ⟨START_BYTE :: t :: len :: (pData ++ [c, STOP_BYTE]), by rw [hs],
    by simp only [List.length_cons, List.length_append, List.length_nil, hd]; omega, ?_⟩
  have hrun : runBytes (zetta_init iface) (START_BYTE :: t :: len :: (pData ++ [c, STOP_BYTE]))
      = some (runCore (zetta_init iface) (START_BYTE :: t :: len :: (pData ++ [c, STOP_BYTE]))) := by
    apply runBytes_eq_runCore
    simp [zetta_init]
  have hframe := runCore_frame (zetta_init iface) t len c pData
    (by simp [zetta_init]) hlen hd
    (by simp [zetta_init, zeroFrame])
  obtain ⟨f1, f2, f3, f4, f5, f6, f7, f8, f9⟩ := hframe
  have hcmatch : (zetta_init iface).interface.computeCRC (t :: len :: pData) = c := by
    rw [hc]
    exact (Nat.mod_eq_of_lt (hcf _)).symm
  obtain ⟨g1, g2, g3⟩ := f8 hcmatch
  exact ⟨_, hrun, g1, f1, f2, f3, g2⟩

/-- **C1 counterexample**: with the injected CRC function constantly `256`
(a legitimate `uint32_t` checksum value), sending type `0`, length `0` on a
fresh instance hands `AA 00 00 00 BC` to the transport (the `crc` byte is
`256 % 256 = 0`), but feeding those five bytes into a fresh instance never
returns `ZETTA_OK`: the receiver compares the untruncated value `256` with
the received byte `0` and raises `ZETTA_ERROR_CRC_MISMATCH`, so the claim as
stated (round-trip for *every* injected CRC function) is false. -/
theorem C1_counterexample :
    (zetta_send (zetta_init
        ⟨FnPtr.null, FnPtr.null, fun _ => 256, FnPtr.null, FnPtr.null, FnPtr.null⟩)
        0 [] 0).map (fun r => (r.ret, r.sent))
      = some (ZETTA_OK, some [0xAA, 0, 0, 0, 0xBC]) ∧
    (runBytes (zetta_init
        ⟨FnPtr.null, FnPtr.null, fun _ => 256, FnPtr.null, FnPtr.null, FnPtr.null⟩)
        [0xAA, 0, 0, 0, 0xBC]).map
          (fun r => (r.rets, r.raised, r.st.payload_ready))
      = some ([ZETTA_ERROR, ZETTA_ERROR, ZETTA_ERROR, ZETTA_ERROR, ZETTA_ERROR],
              [ZETTA_ERROR_CRC_MISMATCH], false) := by
  constructor <;> rfl

/-- **C1 witness**: the amended round-trip at a concrete input
(CRC = sum of the span modulo 256, type 1, payload `[1, 2]`). -/
theorem C1_roundtrip_witness :
    (1 : Nat) < 256 ∧ (2 : Nat) ≤ MAX_PAYLOAD_SIZE ∧
    ([1, 2] : List Nat).length = 2 ∧
    (∃ sr : SendResult, zetta_send (zetta_init
        ⟨FnPtr.null, FnPtr.null, fun l => l.sum % 256, FnPtr.null, FnPtr.null, FnPtr.null⟩)
        1 [1, 2] 2 = some sr ∧
      sr.ret = ZETTA_OK ∧
      ∃ wire : List Nat, sr.sent = some wire ∧ wire.length = 3 + 2 + 2 ∧
      ∃ rr : RunResult, runBytes (zetta_init
          ⟨FnPtr.null, FnPtr.null, fun l => l.sum % 256, FnPtr.null, FnPtr.null, FnPtr.null⟩)
          wire = some rr ∧
        rr.rets = List.replicate (4 + 2) ZETTA_ERROR ++ [ZETTA_OK] ∧
        rr.st.frame.type = 1 ∧
        rr.st.frame.len = 2 ∧
        rr.st.frame.payload.take 2 = [1, 2] ∧
        rr.st.payload_ready = true) :=
  ⟨by decide, by decide, by decide,
    C1_roundtrip _ 1 2 [1, 2] (by decide) (by decide) (by decide)
      (by decide) (fun l => Nat.mod_lt _ (by decide))⟩

/-- **C2** (amended): integrity verification at frame completion.  For every
injected CRC function and every assembled frame reaching `STATE_RX_GET_STOP`,
on a valid stop byte the frame is accepted (`ZETTA_OK`, `payload_ready` set)
exactly when the *untruncated* wide value `computeCRC(type ++ len ++
payload[0..len])` equals the received `crc` byte; on mismatch the call raises
`ZETTA_ERROR_CRC_MISMATCH`.  (The claim's truncated comparison is what the
encoder does when it stores the byte, but the receiver compares the full wide
value — see the counterexample.) -/
theorem C2_crc_check (s : Zetta_t)
    (hgate : s.pstate ≠ ZETTA_STATE_RX_BUSY)
    (hrx : s.rx_frame_state = STATE_RX_GET_STOP) :
    zetta_ParseByte s STOP_BYTE = some (parseCore s STOP_BYTE) ∧
    ((parseCore s STOP_BYTE).ret = ZETTA_OK ↔
      s.interface.computeCRC
        (s.frame.type :: s.frame.len :: s.frame.payload.take s.frame.len)
          = s.frame.crc) ∧
    ((parseCore s STOP_BYTE).st.payload_ready = true ∧
        (parseCore s STOP_BYTE).raised = [] ∨
      (parseCore s STOP_BYTE).st.payload_ready = s.payload_ready ∧
        (parseCore s STOP_BYTE).raised = [ZETTA_ERROR_CRC_MISMATCH] ∧
        ¬ s.interface.computeCRC
            (s.frame.type :: s.frame.len :: s.frame.payload.take s.frame.len)
            = s.frame.crc) := by
  refine ⟨by simp [zetta_ParseByte, hgate], ?_, ?_⟩ <;>
    by_cases hc : s.interface.computeCRC
        (s.frame.type :: s.frame.len :: s.frame.payload.take s.frame.len)
        = s.frame.crc <;>
      simp [parseCore, hrx, zetta_compute_crc, zetta_error_manager, hc]

/-- **C2 witness**: the amended CRC acceptance at a concrete `GET_STOP`
state (constant CRC `5`, received `crc` byte `5`, zero-length payload). -/
theorem C2_crc_check_witness :
    (⟨⟨FnPtr.null, FnPtr.null, fun _ => 5, FnPtr.null, FnPtr.null, FnPtr.null⟩,
       ZETTA_STATE_RX_READY, 0,
       ⟨0xAA, 1, 0, List.replicate 25 0, 5, 0⟩, 0, ZETTA_OK,
       STATE_RX_GET_STOP, false⟩ : Zetta_t).pstate ≠ ZETTA_STATE_RX_BUSY ∧
    (zetta_ParseByte (⟨⟨FnPtr.null, FnPtr.null, fun _ => 5, FnPtr.null, FnPtr.null, FnPtr.null⟩,
       ZETTA_STATE_RX_READY, 0,
       ⟨0xAA, 1, 0, List.replicate 25 0, 5, 0⟩, 0, ZETTA_OK,
       STATE_RX_GET_STOP, false⟩ : Zetta_t) STOP_BYTE
      = some (parseCore (⟨⟨FnPtr.null, FnPtr.null, fun _ => 5, FnPtr.null, FnPtr.null, FnPtr.null⟩,
       ZETTA_STATE_RX_READY, 0,
       ⟨0xAA, 1, 0, List.replicate 25 0, 5, 0⟩, 0, ZETTA_OK,
       STATE_RX_GET_STOP, false⟩ : Zetta_t) STOP_BYTE) ∧
      ((parseCore (⟨⟨FnPtr.null, FnPtr.null, fun _ => 5, FnPtr.null, FnPtr.null, FnPtr.null⟩,
       ZETTA_STATE_RX_READY, 0,
       ⟨0xAA, 1, 0, List.replicate 25 0, 5, 0⟩, 0, ZETTA_OK,
       STATE_RX_GET_STOP, false⟩ : Zetta_t) STOP_BYTE).ret = ZETTA_OK ↔ 5 = 5)) :=
  ⟨by decide,
    ((C2_crc_check _ (by decide) rfl).1),
    ((C2_crc_check _ (by decide) rfl).2.1)⟩

/-- **C2 counterexample**: injected CRC constantly `0x1AB` (= 427).  Feeding
`AA 07 00 AB BC` from a fresh instance assembles a frame that reaches
`GET_STOP` with received `crc` byte `0xAB`; the claim's truncated comparison
holds (`0x1AB % 256 = 0xAB`), yet the code rejects the frame with
`ZETTA_ERROR_CRC_MISMATCH` because it compares the untruncated `0x1AB`
against `0xAB`.  The claim as stated is therefore false. -/
theorem C2_counterexample :
    (0x1AB % 256 = 0xAB) ∧
    (runBytes (zetta_init
        ⟨FnPtr.null, FnPtr.null, fun _ => 0x1AB, FnPtr.null, FnPtr.null, FnPtr.null⟩)
        [0xAA, 0x07, 0, 0xAB, 0xBC]).map
          (fun r => (r.rets, r.raised, r.st.payload_ready))
      = some ([ZETTA_ERROR, ZETTA_ERROR, ZETTA_ERROR, ZETTA_ERROR, ZETTA_ERROR],
              [ZETTA_ERROR_CRC_MISMATCH], false) := by
  constructor <;> rfl

theorem spinExits_busy_forever : ∀ fuel, spinExits fuel true = false := by
  intro fuel
  induction fuel with
  | zero => rfl
  | succ n ih => simpa [spinExits] using ih

/-- **C3** (amended): for every instance state whose gate field is *not*
`ZETTA_STATE_RX_BUSY` and every input byte, `zetta_ParseByte` terminates
with a bounded amount of work (its busy-wait loop exits at once and the call
returns the computed switch result).  When `pstate = ZETTA_STATE_RX_BUSY`
the empty-bodied busy-wait loop never exits (see the counterexample), so the
claim's "for every value of pstate" is too strong — though no code path in
the repository ever writes `ZETTA_STATE_RX_BUSY` into `pstate`. -/
theorem C3_nonblocking (s : Zetta_t) (b : Nat) (fuel : Nat)
    (h : s.pstate ≠ ZETTA_STATE_RX_BUSY) :
    spinExits fuel (decide (s.pstate = ZETTA_STATE_RX_BUSY)) = true ∧
    zetta_ParseByte s b = some (parseCore s b) := by
  constructor
  · have hd : decide (s.pstate = ZETTA_STATE_RX_BUSY) = false := decide_eq_false h
    rw [hd]
    cases fuel <;> rfl
  · simp [zetta_ParseByte, h]

/-- **C3 witness**: the amended termination statement at a concrete
non-busy state (a freshly initialized instance) and byte `0`. -/
theorem C3_nonblocking_witness :
    (zetta_init ⟨FnPtr.null, FnPtr.null, fun _ => 0, FnPtr.null, FnPtr.null,
        FnPtr.null⟩).pstate ≠ ZETTA_STATE_RX_BUSY ∧
    (spinExits 1000 (decide ((zetta_init ⟨FnPtr.null, FnPtr.null, fun _ => 0, FnPtr.null,
        FnPtr.null, FnPtr.null⟩).pstate = ZETTA_STATE_RX_BUSY)) = true ∧
      zetta_ParseByte (zetta_init ⟨FnPtr.null, FnPtr.null, fun _ => 0, FnPtr.null,
          FnPtr.null, FnPtr.null⟩) 0
        = some (parseCore (zetta_init ⟨FnPtr.null, FnPtr.null, fun _ => 0, FnPtr.null,
          FnPtr.null, FnPtr.null⟩) 0)) :=
  ⟨by decide, C3_nonblocking _ 0 1000 (by decide)⟩

/-- **C3 counterexample**: at a state whose `pstate` is
`ZETTA_STATE_RX_BUSY`, the busy-wait loop `while (pstate ==
ZETTA_STATE_RX_BUSY) {}` has an empty body, so its condition never changes
and it does not exit within any number of iterations (shown here for a
million); the call never reaches the state switch, refuting "for every value
of the protocol gate field pstate the call terminates". -/
theorem C3_counterexample :
    zetta_ParseByte (⟨⟨FnPtr.null, FnPtr.null, fun _ => 0, FnPtr.null, FnPtr.null,
        FnPtr.null⟩, ZETTA_STATE_RX_BUSY, 0,
        ⟨0, 0, 0, List.replicate 25 0, 0, 0⟩, 0, ZETTA_OK,
        STATE_RX_WAIT_START, false⟩ : Zetta_t) 0 = none ∧
    spinExits 1000000 (decide ((⟨⟨FnPtr.null, FnPtr.null, fun _ => 0, FnPtr.null,
        FnPtr.null, FnPtr.null⟩, ZETTA_STATE_RX_BUSY, 0,
        ⟨0, 0, 0, List.replicate 25 0, 0, 0⟩, 0, ZETTA_OK,
        STATE_RX_WAIT_START, false⟩ : Zetta_t).pstate = ZETTA_STATE_RX_BUSY)) = false :=
  ⟨rfl, spinExits_busy_forever 1000000⟩

/-- **C4** (amended): `zetta_init` *unconditionally* installs the library
default callbacks `zetta_recieve_cplt_clb`, `zetta_transmit_cplt_clb` and
`zetta_error_manager`, overwriting whatever the caller supplied (non-null or
not); it zeroes all internal state (index, frame, timestamp, error flag,
RX state machine, payload-ready flag) and sets the single shared gate field
to `ZETTA_STATE_RX_READY` — so the RX gate is ready and the TX gate is not
held (`pstate ≠ TX_BUSY`), although the value is not `ZETTA_STATE_TX_READY`
either. -/
theorem C4_init_defaults (iface : ZettaInterface_t) :
    (zetta_init iface).interface.rxCpltClbk = FnPtr.defaultRxCplt ∧
    (zetta_init iface).interface.txCpltClbk = FnPtr.defaultTxCplt ∧
    (zetta_init iface).interface.OnError = FnPtr.defaultErrMgr ∧
    (zetta_init iface).interface.computeCRC = iface.computeCRC ∧
    (zetta_init iface).interface.send = iface.send ∧
    (zetta_init iface).interface.receive = iface.receive ∧
    (zetta_init iface).index = 0 ∧
    (zetta_init iface).frame = zeroFrame ∧
    (zetta_init iface).last_byte_time = 0 ∧
    (zetta_init iface).error = ZETTA_OK ∧
    (zetta_init iface).rx_frame_state = STATE_RX_WAIT_START ∧
    (zetta_init iface).payload_ready = false ∧
    (zetta_init iface).pstate = ZETTA_STATE_RX_READY ∧
    (zetta_init iface).pstate ≠ ZETTA_STATE_TX_BUSY := by
  refine ⟨rfl, rfl, rfl, rfl, rfl, rfl, rfl, rfl, rfl, rfl, rfl, rfl, rfl, by simp [zetta_init]⟩

/-- **C4 counterexample**: a caller-supplied interface with non-null
`rxCpltClbk`, `txCpltClbk` and `OnError` (user functions 1, 2, 3); after
`zetta_init` the installed callbacks are the library defaults, *not* the
caller's — `zetta_init` overwrites them unconditionally, so the claim
"installs defaults only when the caller does not supply them" is false.
Also, `pstate` after init is `ZETTA_STATE_RX_READY`, not
`ZETTA_STATE_TX_READY`: there is no separate TX gate set to ready. -/
theorem C4_counterexample :
    (⟨FnPtr.user 7, FnPtr.user 8, fun _ => 0, FnPtr.user 1, FnPtr.user 2, FnPtr.user 3⟩
        : ZettaInterface_t).rxCpltClbk ≠ FnPtr.null ∧
    (⟨FnPtr.user 7, FnPtr.user 8, fun _ => 0, FnPtr.user 1, FnPtr.user 2, FnPtr.user 3⟩
        : ZettaInterface_t).txCpltClbk ≠ FnPtr.null ∧
    (⟨FnPtr.user 7, FnPtr.user 8, fun _ => 0, FnPtr.user 1, FnPtr.user 2, FnPtr.user 3⟩
        : ZettaInterface_t).OnError ≠ FnPtr.null ∧
    (zetta_init ⟨FnPtr.user 7, FnPtr.user 8, fun _ => 0, FnPtr.user 1, FnPtr.user 2,
        FnPtr.user 3⟩).interface.rxCpltClbk ≠ FnPtr.user 1 ∧
    (zetta_init ⟨FnPtr.user 7, FnPtr.user 8, fun _ => 0, FnPtr.user 1, FnPtr.user 2,
        FnPtr.user 3⟩).interface.txCpltClbk ≠ FnPtr.user 2 ∧
    (zetta_init ⟨FnPtr.user 7, FnPtr.user 8, fun _ => 0, FnPtr.user 1, FnPtr.user 2,
        FnPtr.user 3⟩).interface.OnError ≠ FnPtr.user 3 ∧
    (zetta_init ⟨FnPtr.user 7, FnPtr.user 8, fun _ => 0, FnPtr.user 1, FnPtr.user 2,
        FnPtr.user 3⟩).pstate ≠ ZETTA_STATE_TX_READY := by
  refine ⟨?_, ?_, ?_, ?_, ?_, ?_, ?_⟩ <;> decide

/-- **C5**: oversized payloads are rejected before any transport activity.
For every `len > MAX_PAYLOAD_SIZE`, a `zetta_send` call (with the TX gate
open, so the call runs) returns `ZETTA_ERROR_PAYLOAD_TOO_LARGE`, dispatches
`ZETTA_ERROR_PAYLOAD_TOO_LARGE` through the error hook, and never invokes the
injected transport `send` (ghost `sent = none`); the failed call leaves the
frame record, gate and payload-ready flag untouched (only the RX state
machine is reset by the default hook), so the bytes any other (successful)
call hands to the transport are the same as if the failed call had never
happened. -/
theorem C5_payload_too_large (s : Zetta_t) (t len : Nat) (d : List Nat)
    (hgate : s.pstate ≠ ZETTA_STATE_TX_BUSY)
    (hlen : MAX_PAYLOAD_SIZE < len) :
    zetta_send s t d len = some (sendCore s t d len) ∧
    (sendCore s t d len).ret = ZETTA_ERROR_PAYLOAD_TOO_LARGE ∧
    (sendCore s t d len).raised = [ZETTA_ERROR_PAYLOAD_TOO_LARGE] ∧
    (sendCore s t d len).sent = none ∧
    (sendCore s t d len).st.frame = s.frame ∧
    (sendCore s t d len).st.pstate = s.pstate ∧
    (sendCore s t d len).st.payload_ready = s.payload_ready ∧
    (∀ t2 d2 l2, (sendCore (sendCore s t d len).st t2 d2 l2).sent
        = (sendCore s t2 d2 l2).sent) := by
  refine ⟨by simp [zetta_send, hgate], by simp [sendCore, hlen],
    by simp [sendCore, hlen], by simp [sendCore, hlen],
    by simp [sendCore, hlen, zetta_error_manager],
    by simp [sendCore, hlen, zetta_error_manager],
    by simp [sendCore, hlen, zetta_error_manager], ?_⟩
  intro t2 d2 l2
  by_cases h2 : MAX_PAYLOAD_SIZE < l2 <;>
    simp [sendCore, hlen, h2, zetta_error_manager, zetta_compute_crc]

/-- **C5 witness**: rejection of `len = 26` on a fresh instance. -/
theorem C5_payload_too_large_witness :
    (zetta_init ⟨FnPtr.null, FnPtr.null, fun _ => 0, FnPtr.null, FnPtr.null,
        FnPtr.null⟩).pstate ≠ ZETTA_STATE_TX_BUSY ∧
    MAX_PAYLOAD_SIZE < 26 ∧
    (zetta_send (zetta_init ⟨FnPtr.null, FnPtr.null, fun _ => 0, FnPtr.null,
          FnPtr.null, FnPtr.null⟩) 1 (List.replicate 26 0) 26).map
        (fun r => (r.ret, r.raised, r.sent))
      = some (ZETTA_ERROR_PAYLOAD_TOO_LARGE, [ZETTA_ERROR_PAYLOAD_TOO_LARGE], none) := by
  refine ⟨by decide, by decide, ?_⟩
  have h := C5_payload_too_large
    (zetta_init ⟨FnPtr.null, FnPtr.null, fun _ => 0, FnPtr.null, FnPtr.null, FnPtr.null⟩)
    1 26 (List.replicate 26 0) (by decide) (by decide)
  rw [h.1]
  rfl

theorem runOps_len_le : ∀ (ops : List ZOp) (s s2 : Zetta_t),
    s.frame.len ≤ MAX_PAYLOAD_SIZE → runOps s ops = some s2 →
    s2.frame.len ≤ MAX_PAYLOAD_SIZE := by
  intro ops
  induction ops with
  | nil =>
      intro s s2 h hr
      simp only [runOps, Option.some.injEq] at hr
      exact hr ▸ h
  | cons op ops ih =>
      intro s s2 h hr
      cases op with
      | send t d l =>
          by_cases hg : s.pstate = ZETTA_STATE_TX_BUSY
          · simp [runOps, zetta_send, hg] at hr
          · simp only [runOps, zetta_send, if_neg hg] at hr
            exact ih _ _ (sendCore_len_le s t d l h) hr
      | parse b =>
          by_cases hg : s.pstate = ZETTA_STATE_RX_BUSY
          · simp [runOps, zetta_ParseByte, hg] at hr
          · simp only [runOps, zetta_ParseByte, if_neg hg] at hr
            exact ih _ _ (parseCore_len_le s b h) hr

/-- **C6**: bounded-length invariant.  Along every sequence of `zetta_send`
and `zetta_ParseByte` calls from an initialized instance, the stored
`frame.len` stays `≤ MAX_PAYLOAD_SIZE`; and in `STATE_RX_GET_LEN` a declared
length byte `b > MAX_PAYLOAD_SIZE` is rejected (`ZETTA_ERROR`, the
`payload_ready` flag is not set, the length is not recorded, and the machine
aborts to `WAIT_START`), so a frame with an oversized declared length is
never marked complete. -/
theorem C6_len_invariant (iface : ZettaInterface_t) (ops : List ZOp)
    (s : Zetta_t) (b : Nat)
    (h : runOps (zetta_init iface) ops = some s)
    (hb : MAX_PAYLOAD_SIZE < b) :
    s.frame.len ≤ MAX_PAYLOAD_SIZE ∧
    (s.rx_frame_state = STATE_RX_GET_LEN →
      (parseCore s b).ret = ZETTA_ERROR ∧
      (parseCore s b).ret ≠ ZETTA_OK ∧
      (parseCore s b).raised = [ZETTA_ERROR_PAYLOAD_TOO_LARGE] ∧
      (parseCore s b).st.payload_ready = s.payload_ready ∧
      (parseCore s b).st.frame.len = s.frame.len ∧
      (parseCore s b).st.rx_frame_state = STATE_RX_WAIT_START) := by
  have hnb : ¬ b ≤ MAX_PAYLOAD_SIZE := not_le.mpr hb
  constructor
  · exact runOps_len_le ops _ s (by simp [zetta_init, zeroFrame]) h
  · intro hrx
    refine ⟨?_, ?_, ?_, ?_, ?_, ?_⟩ <;>
      simp [parseCore, hrx, hnb, zetta_error_manager]

/-- **C6 witness**: the invariant at the empty call sequence (the freshly
initialized instance) and oversized declared length `30`. -/
theorem C6_len_invariant_witness :
    runOps (zetta_init ⟨FnPtr.null, FnPtr.null, fun _ => 0, FnPtr.null, FnPtr.null,
        FnPtr.null⟩) [] = some (zetta_init ⟨FnPtr.null, FnPtr.null, fun _ => 0,
        FnPtr.null, FnPtr.null, FnPtr.null⟩) ∧
    MAX_PAYLOAD_SIZE < 30 ∧
    ((zetta_init ⟨FnPtr.null, FnPtr.null, fun _ => 0, FnPtr.null, FnPtr.null,
        FnPtr.null⟩).frame.len ≤ MAX_PAYLOAD_SIZE ∧
      ((zetta_init ⟨FnPtr.null, FnPtr.null, fun _ => 0, FnPtr.null, FnPtr.null,
          FnPtr.null⟩).rx_frame_state = STATE_RX_GET_LEN →
        (parseCore (zetta_init ⟨FnPtr.null, FnPtr.null, fun _ => 0, FnPtr.null,
            FnPtr.null, FnPtr.null⟩) 30).ret = ZETTA_ERROR ∧
        (parseCore (zetta_init ⟨FnPtr.null, FnPtr.null, fun _ => 0, FnPtr.null,
            FnPtr.null, FnPtr.null⟩) 30).ret ≠ ZETTA_OK ∧
        (parseCore (zetta_init ⟨FnPtr.null, FnPtr.null, fun _ => 0, FnPtr.null,
            FnPtr.null, FnPtr.null⟩) 30).raised = [ZETTA_ERROR_PAYLOAD_TOO_LARGE] ∧
        (parseCore (zetta_init ⟨FnPtr.null, FnPtr.null, fun _ => 0, FnPtr.null,
            FnPtr.null, FnPtr.null⟩) 30).st.payload_ready
          = (zetta_init ⟨FnPtr.null, FnPtr.null, fun _ => 0, FnPtr.null, FnPtr.null,
            FnPtr.null⟩).payload_ready ∧
        (parseCore (zetta_init ⟨FnPtr.null, FnPtr.null, fun _ => 0, FnPtr.null,
            FnPtr.null, FnPtr.null⟩) 30).st.frame.len
          = (zetta_init ⟨FnPtr.null, FnPtr.null, fun _ => 0, FnPtr.null, FnPtr.null,
            FnPtr.null⟩).frame.len ∧
        (parseCore (zetta_init ⟨FnPtr.null, FnPtr.null, fun _ => 0, FnPtr.null,
            FnPtr.null, FnPtr.null⟩) 30).st.rx_frame_state = STATE_RX_WAIT_START)) :=
  ⟨rfl, by decide,
    C6_len_invariant ⟨FnPtr.null, FnPtr.null, fun _ => 0, FnPtr.null, FnPtr.null,
      FnPtr.null⟩ [] _ 30 rfl (by decide)⟩

/-- **C7**: self-healing error recovery.  Every error the parser detects
during a `zetta_ParseByte` call is dispatched synchronously to the error
hook within that call (recorded in the ghost `raised` list, with the default
hook `zetta_error_manager` applied at the raise site), and the default hook
unconditionally resets the RX machine; hence after any erroring call the RX
state is `STATE_RX_WAIT_START`, and feeding any subsequent valid frame
(header, `n`-byte payload, matching CRC byte, stop) still completes with
`ZETTA_OK` on its final byte — no RX error is fatal to the instance. -/
theorem C7_self_healing (s : Zetta_t) (b t n c : Nat) (p : List Nat)
    (hgate : s.pstate ≠ ZETTA_STATE_RX_BUSY)
    (herr : (parseCore s b).raised ≠ [])
    (hpl : MAX_PAYLOAD_SIZE ≤ s.frame.payload.length)
    (hn : n ≤ MAX_PAYLOAD_SIZE) (hp : p.length = n)
    (hc : s.interface.computeCRC (t :: n :: p) = c) :
    zetta_ParseByte s b = some (parseCore s b) ∧
    (parseCore s b).st.rx_frame_state = STATE_RX_WAIT_START ∧
    runBytes (parseCore s b).st (START_BYTE :: t :: n :: (p ++ [c, STOP_BYTE]))
      = some (runCore (parseCore s b).st (START_BYTE :: t :: n :: (p ++ [c, STOP_BYTE]))) ∧
    (runCore (parseCore s b).st (START_BYTE :: t :: n :: (p ++ [c, STOP_BYTE]))).rets
      = List.replicate (4 + n) ZETTA_ERROR ++ [ZETTA_OK] ∧
    (runCore (parseCore s b).st (START_BYTE :: t :: n :: (p ++ [c, STOP_BYTE]))).st.payload_ready
      = true := by
  have hwait := parseCore_raised_wait_start s b herr
  have hpst : (parseCore s b).st.pstate ≠ ZETTA_STATE_RX_BUSY := by
    rw [parseCore_pstate]; exact hgate
  have hlen2 : MAX_PAYLOAD_SIZE ≤ (parseCore s b).st.frame.payload.length := by
    rw [parseCore_payload_length]; exact hpl
  have hframe := runCore_frame (parseCore s b).st t n c p hwait hn hp hlen2
  obtain ⟨f1, f2, f3, f4, f5, f6, f7, f8, f9⟩ := hframe
  have hc2 : (parseCore s b).st.interface.computeCRC (t :: n :: p) = c := by
    rw [parseCore_interface]; exact hc
  obtain ⟨g1, g2, g3⟩ := f8 hc2
  exact ⟨by simp [zetta_ParseByte, hgate], hwait,
    runBytes_eq_runCore _ _ hpst, g1, g2⟩

/-- **C7 witness**: an `InvalidStart` error on a fresh instance (byte `0`
in `WAIT_START`), followed by a valid zero-length frame with constant CRC
`3` that still completes. -/
theorem C7_self_healing_witness :
    (zetta_init ⟨FnPtr.null, FnPtr.null, fun _ => 3, FnPtr.null, FnPtr.null,
        FnPtr.null⟩).pstate ≠ ZETTA_STATE_RX_BUSY ∧
    (parseCore (zetta_init ⟨FnPtr.null, FnPtr.null, fun _ => 3, FnPtr.null,
        FnPtr.null, FnPtr.null⟩) 0).raised ≠ [] ∧
    ((parseCore (zetta_init ⟨FnPtr.null, FnPtr.null, fun _ => 3, FnPtr.null,
        FnPtr.null, FnPtr.null⟩) 0).st.rx_frame_state = STATE_RX_WAIT_START ∧
      (runCore (parseCore (zetta_init ⟨FnPtr.null, FnPtr.null, fun _ => 3, FnPtr.null,
          FnPtr.null, FnPtr.null⟩) 0).st
          (START_BYTE :: 1 :: 0 :: ([] ++ [3, STOP_BYTE]))).rets
        = List.replicate (4 + 0) ZETTA_ERROR ++ [ZETTA_OK] ∧
      (runCore (parseCore (zetta_init ⟨FnPtr.null, FnPtr.null, fun _ => 3, FnPtr.null,
          FnPtr.null, FnPtr.null⟩) 0).st
          (START_BYTE :: 1 :: 0 :: ([] ++ [3, STOP_BYTE]))).st.payload_ready = true) := by
  have h := C7_self_healing
    (zetta_init ⟨FnPtr.null, FnPtr.null, fun _ => 3, FnPtr.null, FnPtr.null, FnPtr.null⟩)
    0 1 0 3 [] (by decide) (by decide) (by decide) (by decide) rfl rfl
  exact ⟨by decide, by decide, h.2.1, h.2.2.2.1, h.2.2.2.2⟩

/-- **C8**: the `STATE_RX_GET_LEN` transition.  With the gate open, a byte
`b ≤ MAX_PAYLOAD_SIZE` is recorded as the frame length and the machine moves
to `GET_CRC` when `b = 0` and to `GET_PAYLOAD` otherwise, raising nothing; a
byte `b > MAX_PAYLOAD_SIZE` raises `ZETTA_ERROR_PAYLOAD_TOO_LARGE` (return
value `ZETTA_ERROR`) and the machine is back in `WAIT_START` after the call. -/
theorem C8_get_len (s : Zetta_t) (b : Nat)
    (hgate : s.pstate ≠ ZETTA_STATE_RX_BUSY)
    (hrx : s.rx_frame_state = STATE_RX_GET_LEN) :
    zetta_ParseByte s b = some (parseCore s b) ∧
    (b ≤ MAX_PAYLOAD_SIZE →
      (parseCore s b).st.frame.len = b ∧
      (parseCore s b).st.rx_frame_state
        = (if b = 0 then STATE_RX_GET_CRC else STATE_RX_GET_PAYLOAD) ∧
      (parseCore s b).raised = []) ∧
    (MAX_PAYLOAD_SIZE < b →
      (parseCore s b).raised = [ZETTA_ERROR_PAYLOAD_TOO_LARGE] ∧
      (parseCore s b).ret = ZETTA_ERROR ∧
      (parseCore s b).st.rx_frame_state = STATE_RX_WAIT_START) := by
  refine ⟨by simp [zetta_ParseByte, hgate], ?_, ?_⟩
  · intro hb
    refine ⟨?_, ?_, ?_⟩ <;> simp [parseCore, hrx, hb]
  · intro hb
    have hnb : ¬ b ≤ MAX_PAYLOAD_SIZE := not_le.mpr hb
    refine ⟨?_, ?_, ?_⟩ <;> simp [parseCore, hrx, hnb, zetta_error_manager]

/-- **C8 witness**: the `GET_LEN` transition at a concrete state with byte
`2` (→ `GET_PAYLOAD`). -/
theorem C8_get_len_witness :
    (⟨⟨FnPtr.null, FnPtr.null, fun _ => 0, FnPtr.null, FnPtr.null, FnPtr.null⟩,
        ZETTA_STATE_RX_READY, 0, ⟨0xAA, 1, 0, List.replicate 25 0, 0, 0⟩, 0,
        ZETTA_OK, STATE_RX_GET_LEN, false⟩ : Zetta_t).pstate
      ≠ ZETTA_STATE_RX_BUSY ∧
    (⟨⟨FnPtr.null, FnPtr.null, fun _ => 0, FnPtr.null, FnPtr.null, FnPtr.null⟩,
        ZETTA_STATE_RX_READY, 0, ⟨0xAA, 1, 0, List.replicate 25 0, 0, 0⟩, 0,
        ZETTA_OK, STATE_RX_GET_LEN, false⟩ : Zetta_t).rx_frame_state
      = STATE_RX_GET_LEN ∧
    ((2 : Nat) ≤ MAX_PAYLOAD_SIZE →
      (parseCore (⟨⟨FnPtr.null, FnPtr.null, fun _ => 0, FnPtr.null, FnPtr.null,
          FnPtr.null⟩, ZETTA_STATE_RX_READY, 0, ⟨0xAA, 1, 0, List.replicate 25 0, 0, 0⟩,
          0, ZETTA_OK, STATE_RX_GET_LEN, false⟩ : Zetta_t) 2).st.frame.len = 2 ∧
      (parseCore (⟨⟨FnPtr.null, FnPtr.null, fun _ => 0, FnPtr.null, FnPtr.null,
          FnPtr.null⟩, ZETTA_STATE_RX_READY, 0, ⟨0xAA, 1, 0, List.replicate 25 0, 0, 0⟩,
          0, ZETTA_OK, STATE_RX_GET_LEN, false⟩ : Zetta_t) 2).st.rx_frame_state
        = (if (2 : Nat) = 0 then STATE_RX_GET_CRC else STATE_RX_GET_PAYLOAD) ∧
      (parseCore (⟨⟨FnPtr.null, FnPtr.null, fun _ => 0, FnPtr.null, FnPtr.null,
          FnPtr.null⟩, ZETTA_STATE_RX_READY, 0, ⟨0xAA, 1, 0, List.replicate 25 0, 0, 0⟩,
          0, ZETTA_OK, STATE_RX_GET_LEN, false⟩ : Zetta_t) 2).raised = []) :=
  ⟨by decide, rfl,
    (C8_get_len (⟨⟨FnPtr.null, FnPtr.null, fun _ => 0, FnPtr.null, FnPtr.null,
      FnPtr.null⟩, ZETTA_STATE_RX_READY, 0, ⟨0xAA, 1, 0, List.replicate 25 0, 0, 0⟩,
      0, ZETTA_OK, STATE_RX_GET_LEN, false⟩ : Zetta_t) 2 (by decide) rfl).2.1⟩

/-- **C9**: the TX and RX gates are one shared field.  A successful
`zetta_send` leaves `pstate = ZETTA_STATE_TX_BUSY`; running the default
receive-complete callback sets `pstate = ZETTA_STATE_RX_READY`, so a TX-busy
indication recorded before it no longer holds afterwards — releasing the RX
gate erases the TX gate's state. -/
theorem C9_shared_gate (s s2 : Zetta_t) (t len : Nat) (d : List Nat)
    (hgate : s.pstate ≠ ZETTA_STATE_TX_BUSY)
    (hlen : len ≤ MAX_PAYLOAD_SIZE)
    (hbusy : s2.pstate = ZETTA_STATE_TX_BUSY) :
    zetta_send s t d len = some (sendCore s t d len) ∧
    (sendCore s t d len).ret = ZETTA_OK ∧
    (sendCore s t d len).st.pstate = ZETTA_STATE_TX_BUSY ∧
    (zetta_recieve_cplt_clb s2).pstate = ZETTA_STATE_RX_READY ∧
    (zetta_recieve_cplt_clb s2).pstate ≠ ZETTA_STATE_TX_BUSY := by
  have hnl : ¬ MAX_PAYLOAD_SIZE < len := not_lt.mpr hlen
  refine ⟨by simp [zetta_send, hgate], ?_, ?_, ?_, ?_⟩ <;>
    simp [sendCore, hnl, zetta_recieve_cplt_clb]

/-- **C9 witness**: a fresh instance sends a 1-byte frame (gate becomes
`TX_BUSY`); the receive-complete callback on a TX-busy instance flips the
shared field to `RX_READY`. -/
theorem C9_shared_gate_witness :
    (zetta_init ⟨FnPtr.null, FnPtr.null, fun _ => 0, FnPtr.null, FnPtr.null,
        FnPtr.null⟩).pstate ≠ ZETTA_STATE_TX_BUSY ∧
    (1 : Nat) ≤ MAX_PAYLOAD_SIZE ∧
    (⟨⟨FnPtr.null, FnPtr.null, fun _ => 0, FnPtr.null, FnPtr.null, FnPtr.null⟩,
        ZETTA_STATE_TX_BUSY, 0, ⟨0, 0, 0, List.replicate 25 0, 0, 0⟩, 0,
        ZETTA_OK, STATE_RX_WAIT_START, false⟩ : Zetta_t).pstate
      = ZETTA_STATE_TX_BUSY ∧
    ((sendCore (zetta_init ⟨FnPtr.null, FnPtr.null, fun _ => 0, FnPtr.null,
        FnPtr.null, FnPtr.null⟩) 1 [9] 1).st.pstate = ZETTA_STATE_TX_BUSY ∧
      (zetta_recieve_cplt_clb (⟨⟨FnPtr.null, FnPtr.null, fun _ => 0, FnPtr.null,
          FnPtr.null, FnPtr.null⟩, ZETTA_STATE_TX_BUSY, 0,
          ⟨0, 0, 0, List.replicate 25 0, 0, 0⟩, 0, ZETTA_OK, STATE_RX_WAIT_START,
          false⟩ : Zetta_t)).pstate = ZETTA_STATE_RX_READY ∧
      (zetta_recieve_cplt_clb (⟨⟨FnPtr.null, FnPtr.null, fun _ => 0, FnPtr.null,
          FnPtr.null, FnPtr.null⟩, ZETTA_STATE_TX_BUSY, 0,
          ⟨0, 0, 0, List.replicate 25 0, 0, 0⟩, 0, ZETTA_OK, STATE_RX_WAIT_START,
          false⟩ : Zetta_t)).pstate ≠ ZETTA_STATE_TX_BUSY) := by
  have h := C9_shared_gate
    (zetta_init ⟨FnPtr.null, FnPtr.null, fun _ => 0, FnPtr.null, FnPtr.null, FnPtr.null⟩)
    (⟨⟨FnPtr.null, FnPtr.null, fun _ => 0, FnPtr.null, FnPtr.null, FnPtr.null⟩,
        ZETTA_STATE_TX_BUSY, 0, ⟨0, 0, 0, List.replicate 25 0, 0, 0⟩, 0,
        ZETTA_OK, STATE_RX_WAIT_START, false⟩ : Zetta_t)
    1 1 [9] (by decide) (by decide) rfl
  exact ⟨by decide, by decide, rfl, h.2.2.1, h.2.2.2.1, h.2.2.2.2⟩

/-- **C10** (amended): the payload-ready flag latches — it is set at frame
completion, cleared only by `zetta_init`, and never cleared by a parse call
(in particular not by any RX error).  While it is clear, `Zetta_GetPayload`
leaves the destination buffer unchanged and `Zetta_GetType` returns
`MSG_ACK` (0).  While it is set, the getters read the instance's *current*
frame buffer (`frame.type`, `payload[0..frame.len]`); a later partial parse
may already have overwritten those fields before its error, so after a
subsequent RX error the getters do not necessarily return the previously
completed frame's data (see the counterexample). -/
theorem C10_latch (s s2 : Zetta_t) (b : Nat) (dest : List Nat)
    (iface : ZettaInterface_t)
    (hready : s.payload_ready = true)
    (hnot : s2.payload_ready = false) :
    (parseCore s b).st.payload_ready = true ∧
    (zetta_init iface).payload_ready = false ∧
    Zetta_GetType s = s.frame.type ∧
    Zetta_GetPayload s dest
      = s.frame.payload.take s.frame.len ++ dest.drop s.frame.len ∧
    Zetta_GetPayload s2 dest = dest ∧
    Zetta_GetType s2 = 0 := by
  exact ⟨parseCore_payload_ready_mono s b hready, rfl,
    by simp [Zetta_GetType, hready],
    by simp [Zetta_GetPayload, hready],
    by simp [Zetta_GetPayload, hnot],
    by simp [Zetta_GetType, hnot]⟩

/-- **C10 witness**: the amended latch behaviour at two concrete states
(one with the flag set, one fresh). -/
theorem C10_latch_witness :
    (⟨⟨FnPtr.null, FnPtr.null, fun _ => 0, FnPtr.null, FnPtr.null, FnPtr.null⟩,
        ZETTA_STATE_RX_READY, 0, ⟨0xAA, 1, 1, 7 :: List.replicate 24 0, 0, 0xBC⟩,
        0, ZETTA_OK, STATE_RX_WAIT_START, true⟩ : Zetta_t).payload_ready = true ∧
    (zetta_init ⟨FnPtr.null, FnPtr.null, fun _ => 0, FnPtr.null, FnPtr.null,
        FnPtr.null⟩).payload_ready = false ∧
    ((parseCore (⟨⟨FnPtr.null, FnPtr.null, fun _ => 0, FnPtr.null, FnPtr.null,
        FnPtr.null⟩, ZETTA_STATE_RX_READY, 0,
        ⟨0xAA, 1, 1, 7 :: List.replicate 24 0, 0, 0xBC⟩, 0, ZETTA_OK,
        STATE_RX_WAIT_START, true⟩ : Zetta_t) 0).st.payload_ready = true ∧
      Zetta_GetType (⟨⟨FnPtr.null, FnPtr.null, fun _ => 0, FnPtr.null, FnPtr.null,
        FnPtr.null⟩, ZETTA_STATE_RX_READY, 0,
        ⟨0xAA, 1, 1, 7 :: List.replicate 24 0, 0, 0xBC⟩, 0, ZETTA_OK,
        STATE_RX_WAIT_START, true⟩ : Zetta_t) = 1 ∧
      Zetta_GetPayload (⟨⟨FnPtr.null, FnPtr.null, fun _ => 0, FnPtr.null, FnPtr.null,
        FnPtr.null⟩, ZETTA_STATE_RX_READY, 0,
        ⟨0xAA, 1, 1, 7 :: List.replicate 24 0, 0, 0xBC⟩, 0, ZETTA_OK,
        STATE_RX_WAIT_START, true⟩ : Zetta_t) [5, 6] = [7, 6] ∧
      Zetta_GetPayload (zetta_init ⟨FnPtr.null, FnPtr.null, fun _ => 0, FnPtr.null,
        FnPtr.null, FnPtr.null⟩) [5, 6] = [5, 6] ∧
      Zetta_GetType (zetta_init ⟨FnPtr.null, FnPtr.null, fun _ => 0, FnPtr.null,
        FnPtr.null, FnPtr.null⟩) = 0) := by
  have h := C10_latch
    (⟨⟨FnPtr.null, FnPtr.null, fun _ => 0, FnPtr.null, FnPtr.null, FnPtr.null⟩,
        ZETTA_STATE_RX_READY, 0, ⟨0xAA, 1, 1, 7 :: List.replicate 24 0, 0, 0xBC⟩,
        0, ZETTA_OK, STATE_RX_WAIT_START, true⟩ : Zetta_t)
    (zetta_init ⟨FnPtr.null, FnPtr.null, fun _ => 0, FnPtr.null, FnPtr.null,
        FnPtr.null⟩)
    0 [5, 6]
    ⟨FnPtr.null, FnPtr.null, fun _ => 0, FnPtr.null, FnPtr.null, FnPtr.null⟩
    rfl rfl
  refine ⟨rfl, rfl, h.1, ?_, ?_, h.2.2.2.2.1, rfl⟩
  · rw [h.2.2.1]
  · rw [h.2.2.2.1]
    rfl

/-- **C10 counterexample**: with the injected CRC constantly `0`, a first
frame `AA 01 00 00 BC` completes (`ZETTA_OK`, `payload_ready` set,
`Zetta_GetType = 1`).  A second, corrupted sequence `AA 02 00 00 FF` then
raises `ZETTA_ERROR_INVALID_STOP`; `payload_ready` indeed stays latched, but
`Zetta_GetType` now returns `2` — the aborted frame's type byte overwrote the
buffer — refuting "Zetta_GetPayload / Zetta_GetType still return the
previously completed frame's payload and type" after a later error. -/
theorem C10_counterexample :
    (runBytes (zetta_init
        ⟨FnPtr.null, FnPtr.null, fun _ => 0, FnPtr.null, FnPtr.null, FnPtr.null⟩)
        [0xAA, 1, 0, 0, 0xBC]).map
      (fun r => (r.rets.getLast?, r.st.payload_ready, Zetta_GetType r.st))
      = some (some ZETTA_OK, true, 1) ∧
    (runBytes (zetta_init
        ⟨FnPtr.null, FnPtr.null, fun _ => 0, FnPtr.null, FnPtr.null, FnPtr.null⟩)
        [0xAA, 1, 0, 0, 0xBC, 0xAA, 2, 0, 0, 0xFF]).map
      (fun r => (r.raised, r.st.payload_ready, Zetta_GetType r.st))
      = some ([ZETTA_ERROR_INVALID_STOP], true, 2) := by
  constructor <;> rfl
